import Mathlib

/-
Shallow embedding of the process-lifecycle core of frp-cli-gui.

The repository contains two near-identical manager implementations:
  * the "service" package   (src/unnamed/part_000..part_008, Manager in part_006)
  * the "installer" package (src/internal/installer/installer.go, lines 386-934)
Both define `Manager { mu, serverCmd, clientCmd, serverCancel, clientCancel,
logChan, isRunning }`.  The Start functions are identical across the two
packages; Stop, monitorProcess, collectLogs and GetStatus differ and are
embedded separately.  Go pointers `*exec.Cmd` are modelled as `Option GoCmd`
where a `GoCmd` carries an object identity (`cid`, standing for the pointer)
and the `Process` field as `Option Nat` (the pid once `cmd.Start` succeeded).
The bounded log channel is modelled as a list plus an explicit capacity where
the capacity matters (collectLogs); the managers' own blocking sends are
modelled as plain appends.  `time.Now()` is modelled by threading an abstract
clock value `now : Nat`.  OS outcomes (file existence, pipe creation, spawn,
signal delivery, process discovery) are modelled as environment records.
-/

namespace FrpCliGui

/-- The two supervised roles; `server` runs frps, `client` runs frpc. -/
inductive Role where
  | server
  | client
  deriving DecidableEq, Repr

/-- The `Source` string attached to log messages for a role. -/
def roleSource : Role → String
  | .server => "server"
  | .client => "client"

/-- The executable name looked up for a role (frps for server, frpc for client). -/
def roleExe : Role → String
  | .server => "frps"
  | .client => "frpc"

/-- A Go `*exec.Cmd` object: `cid` models the pointer identity (used by the
installer monitorProcess's `m.serverCmd == cmd` comparison), `process` models
the `Process` field, `some pid` once `cmd.Start()` has succeeded. -/
structure GoCmd where
  cid : Nat
  process : Option Nat
  deriving DecidableEq, Repr

/-- `LogMessage { Timestamp, Level, Message, Source }` (both packages).  The
timestamp is the abstract clock value at which the message was produced. -/
structure LogMessage where
  timestamp : Nat
  level : String
  message : String
  source : String
  deriving DecidableEq, Repr

/-- `ProcessStatus { IsRunning, PID, StartTime }`.  The unused CPU and Memory
fields (never written by any code path, always Go zero values) are omitted.
Zero value: `{ IsRunning: false }` leaves pid and startTime at 0. -/
structure ProcessStatus where
  isRunning : Bool
  pid : Nat
  startTime : Nat
  deriving DecidableEq, Repr

/-- The shared shape of `Manager` in both packages: the two role slots, the
two cancellation functions (modelled as "a cancel func is installed"), the
log channel contents and the `isRunning` flag. -/
structure Mgr where
  serverCmd : Option GoCmd
  clientCmd : Option GoCmd
  serverCancel : Bool
  clientCancel : Bool
  logChan : List LogMessage
  isRunning : Bool
  deriving DecidableEq, Repr

/-- Error taxonomy: one constructor per distinct `fmt.Errorf` site reached by
the embedded functions.  `stopFailed` models Restart's wrapping of a Stop
error with `%w`. -/
inductive MgrError where
  | alreadyRunning (role : Role)
  | configNotFound (path : String)
  | execNotFound (name : String)
  | pipeFailed (role : Role)
  | spawnFailed (role : Role)
  | killFailed
  | notRunning (role : Role)
  | externalKillFailed (role : Role)
  | stopFailed (e : MgrError)
  | unknownService (svc : String)
  deriving DecidableEq, Repr

/-- The Go guard `cmd != nil && cmd.Process != nil` used by Start, Stop and
GetStatus in both packages. -/
def slotLive : Option GoCmd → Bool
  | some c => c.process.isSome
  | none => false

/-- The role's slot (`m.serverCmd` / `m.clientCmd`). -/
def Mgr.cmdOf (m : Mgr) : Role → Option GoCmd
  | .server => m.serverCmd
  | .client => m.clientCmd

/-- Assign the role's slot. -/
def Mgr.setCmd (m : Mgr) : Role → Option GoCmd → Mgr
  | .server, c => { m with serverCmd := c }
  | .client, c => { m with clientCmd := c }

/-- Assign the role's cancellation flag (`m.serverCancel` / `m.clientCancel`). -/
def Mgr.setCancel (m : Mgr) : Role → Bool → Mgr
  | .server, b => { m with serverCancel := b }
  | .client, b => { m with clientCancel := b }

/-- A blocking send `m.logChan <- msg` by a manager method, modelled as an
append (the channel's FIFO order is the list order). -/
def Mgr.pushLog (m : Mgr) (msg : LogMessage) : Mgr :=
  { m with logChan := m.logChan ++ [msg] }

/-- `strings.Contains(s, sub)`: some suffix of `s` starts with `sub`. -/
def goContains (s sub : String) : Bool :=
  s.toList.tails.any fun t => sub.toList.isPrefixOf t

/-- Whitespace as trimmed by `strings.TrimSpace` (modelled on the ASCII
whitespace characters that matter for process output lines). -/
def goIsSpace (c : Char) : Bool :=
  c = ' ' || c = '\t' || c = '\n' || c = '\r'

/-- `strings.TrimSpace(s)`: drop leading and trailing whitespace. -/
def goTrim (s : String) : String :=
  ⟨((s.toList.dropWhile goIsSpace).reverse.dropWhile goIsSpace).reverse⟩

/-- Environment of `findFRPExecutable` (identical in both packages):
the installer check result, the `exec.LookPath` outcome, the working
directory, the platform, and the set of paths for which `os.Stat` succeeds. -/
structure FindEnv where
  instOk : Bool
  instFrpsPath : String
  instFrpcPath : String
  lookPathHit : Option String
  cwd : String
  isWindows : Bool
  existing : List String
  deriving DecidableEq, Repr

/-- `findFRPExecutable(name)` (service part_006 lines 313-362, installer
lines 692-741): try the installer's recorded paths, then `exec.LookPath`,
then the current directory (`filepath.Join(cwd, name)`, `.exe` appended on
Windows), then the common locations, else fail. -/
def findFRPExecutable (env : FindEnv) (name : String) : Option String :=
  if env.instOk ∧ name = "frps" ∧ env.instFrpsPath ≠ "" then some env.instFrpsPath
  else if env.instOk ∧ name = "frpc" ∧ env.instFrpcPath ≠ "" then some env.instFrpcPath
  else
    match env.lookPathHit with
    | some p => some p
    | none =>
      let localPath :=
        if env.isWindows then env.cwd ++ "/" ++ name ++ ".exe"
        else env.cwd ++ "/" ++ name
      if env.existing.contains localPath then some localPath
      else
        let commonPaths :=
          ["/usr/local/bin/" ++ name, "/usr/bin/" ++ name,
           "/opt/frp/" ++ name, "./bin/" ++ name].map
            fun p => if env.isWindows then p ++ ".exe" else p
        commonPaths.find? fun p => env.existing.contains p

/-- Environment of a Start call: whether `os.Stat(configPath)` succeeds, the
executable-search environment, whether the two pipe creations and the spawn
succeed, and the identity/pid of the freshly created command. -/
structure StartEnv where
  configExists : Bool
  findEnv : FindEnv
  stdoutPipeOk : Bool
  stderrPipeOk : Bool
  spawnOk : Bool
  newCmdId : Nat
  newPid : Nat
  deriving DecidableEq, Repr

/-- The success log line of Start (`FRP 服务端启动成功 (PID: d)` resp. client). -/
def startOkMsg (role : Role) (pid : Nat) : String :=
  match role with
  | .server => "FRP 服务端启动成功 (PID: " ++ toString pid ++ ")"
  | .client => "FRP 客户端启动成功 (PID: " ++ toString pid ++ ")"

/-- `StartServer` / `StartClient`, identical in the service package (part_006
lines 55-173) and the installer package (lines 422-522); only the server
variant sets `isRunning = true`.  Returns the Go error (if any) and the
manager state at return.  Mutation order follows the source: the already-
running and config checks mutate nothing; the cancel func is installed before
the executable search; the Cmd is assigned (with nil Process) before the pipe
and spawn steps; on success the Process field is populated, `isRunning` is
set for the server role, and the success message is sent. -/
def mgrStart (role : Role) (env : StartEnv) (configPath : String) (now : Nat)
    (m : Mgr) : Option MgrError × Mgr :=
  if slotLive (m.cmdOf role) then (some (.alreadyRunning role), m)
  else if ¬ env.configExists then (some (.configNotFound configPath), m)
  else
    let m1 := m.setCancel role true
    match findFRPExecutable env.findEnv (roleExe role) with
    | none => (some (.execNotFound (roleExe role)), m1)
    | some _ =>
      let m2 := m1.setCmd role (some ⟨env.newCmdId, none⟩)
      if ¬ env.stdoutPipeOk then (some (.pipeFailed role), m2)
      else if ¬ env.stderrPipeOk then (some (.pipeFailed role), m2)
      else if ¬ env.spawnOk then (some (.spawnFailed role), m2)
      else
        let m3 := m2.setCmd role (some ⟨env.newCmdId, some env.newPid⟩)
        let m4 := if role = .server then { m3 with isRunning := true } else m3
        (none, m4.pushLog ⟨now, "INFO", startOkMsg role env.newPid, roleSource role⟩)

/-- Environment of a Stop call: whether `Process.Signal(SIGTERM)` succeeds,
whether the fallback `Process.Kill` succeeds, whether the external
kill-by-pid succeeds, and the pid returned by `findFRPProcess` (0 = none
found, as in the Go function). -/
structure StopEnv where
  signalOk : Bool
  killOk : Bool
  extKillOk : Bool
  probePid : Nat
  deriving DecidableEq, Repr

/-- `StopServer` / `StopClient` of the service package (part_006 lines
176-253).  If no live command: return the not-running error.  Otherwise call
the cancel func (kept installed — the service version does not nil it),
signal SIGTERM, escalate to Kill only if the signal call fails, and fail with
the kill error if that also fails.  The slot is NOT cleared here: a
background goroutine (see `serviceStopWaiter`) waits for process exit and
only then clears it.  On success one stop message is sent. -/
def serviceStop (role : Role) (env : StopEnv) (now : Nat) (m : Mgr) :
    Option MgrError × Mgr :=
  if ¬ slotLive (m.cmdOf role) then (some (.notRunning role), m)
  else if ¬ env.signalOk ∧ ¬ env.killOk then (some .killFailed, m)
  else
    (none, m.pushLog ⟨now, "INFO",
      (match role with
       | .server => "FRP 服务端已停止"
       | .client => "FRP 客户端已停止"), roleSource role⟩)

/-- The body of the background goroutine spawned by the service package's
Stop after `cmd.Wait()` returns: take the lock and clear the slot. -/
def serviceStopWaiter (role : Role) (m : Mgr) : Mgr :=
  m.setCmd role none

/-- `monitorProcess` of the service package (part_006 lines 381-409): after
`cmd.Wait()` returns with `exitErr`, log ERROR `进程异常退出: e` when the wait
errored and INFO `进程正常退出` otherwise, then clear the role's slot
UNCONDITIONALLY (the `cmd` argument is not compared against the slot). -/
def serviceMonitorProcess (role : Role) (_cmd : GoCmd) (exitErr : Option String)
    (now : Nat) (m : Mgr) : Mgr :=
  let m1 :=
    match exitErr with
    | some e => m.pushLog ⟨now, "ERROR", "进程异常退出: " ++ e, roleSource role⟩
    | none => m.pushLog ⟨now, "INFO", "进程正常退出", roleSource role⟩
  m1.setCmd role none

/-- `GetServerStatus` / `GetClientStatus` of the service package (part_006
lines 256-305): a live own command yields running with its pid and
`StartTime: time.Now()`; otherwise `findFRPProcess` (result `probePid`,
0 = none) yields running with the discovered pid, also stamped with the
query time; otherwise the zero-valued not-running status. -/
def serviceGetStatus (role : Role) (probePid : Nat) (now : Nat) (m : Mgr) :
    ProcessStatus :=
  if slotLive (m.cmdOf role) then
    match m.cmdOf role with
    | some c =>
      match c.process with
      | some pid => ⟨true, pid, now⟩
      | none => ⟨false, 0, 0⟩
    | none => ⟨false, 0, 0⟩
  else if probePid > 0 then ⟨true, probePid, now⟩
  else ⟨false, 0, 0⟩

/-- `GetServerStatus` / `GetClientStatus` of the installer package (lines
653-684): only the manager's own command is consulted; a live command yields
running with its pid and `StartTime: time.Now()` (the query time). -/
def installerGetStatus (role : Role) (now : Nat) (m : Mgr) : ProcessStatus :=
  match m.cmdOf role with
  | some c =>
    match c.process with
    | some pid => ⟨true, pid, now⟩
    | none => ⟨false, 0, 0⟩
  | none => ⟨false, 0, 0⟩

/-- The external branch of the installer `StopServer` (lines 549-556 plus
the trailing log/return): if `findFRPProcess("frps")` found a pid (`probePid
> 0`), kill it by pid (error on failure) and log; when nothing was found it
falls through to `return nil` — NO error is returned. -/
def installerStopServerExternal (env : StopEnv) (now : Nat) (m : Mgr) :
    Option MgrError × Mgr :=
  if env.probePid > 0 then
    if ¬ env.extKillOk then (some (.externalKillFailed .server), m)
    else
      (none, m.pushLog ⟨now, "INFO",
        "FRP 服务端已停止 (PID: " ++ toString env.probePid ++ ")", "server"⟩)
  else (none, m)

/-- `StopServer` of the installer package (lines 525-568).  Managed path
(guard `serverCmd != nil && serverCmd.Process != nil`): nil the cancel func,
signal SIGTERM, escalate to Kill only if the signal call fails (error if
both fail), then `Wait()` SYNCHRONOUSLY, clear the slot and `isRunning`, and
log `FRP 服务端已停止 (PID: d)`.  Otherwise the external branch. -/
def installerStopServer (env : StopEnv) (now : Nat) (m : Mgr) :
    Option MgrError × Mgr :=
  match m.serverCmd with
  | some ⟨_, some pid⟩ =>
    let m1 := { m with serverCancel := false }
    if ¬ env.signalOk ∧ ¬ env.killOk then (some .killFailed, m1)
    else
      let m2 := { m1 with serverCmd := none, isRunning := false }
      (none, m2.pushLog ⟨now, "INFO",
        "FRP 服务端已停止 (PID: " ++ toString pid ++ ")", "server"⟩)
  | some ⟨_, none⟩ => installerStopServerExternal env now m
  | none => installerStopServerExternal env now m

/-- The external branch of the installer `StopClient` (lines 612-628): if
`findFRPProcess("frpc")` found a pid, kill it by pid (error on failure) and
log; with nothing found, return the not-running error. -/
def installerStopClientExternal (env : StopEnv) (now : Nat) (m : Mgr) :
    Option MgrError × Mgr :=
  if env.probePid > 0 then
    if ¬ env.extKillOk then (some (.externalKillFailed .client), m)
    else
      (none, m.pushLog ⟨now, "INFO",
        "外部 FRP 客户端进程已停止 (PID: " ++ toString env.probePid ++ ")", "client"⟩)
  else (some (.notRunning .client), m)

/-- `StopClient` of the installer package (lines 571-629).  Managed path: nil
the cancel func, signal/escalate, clear the slot SYNCHRONOUSLY (`cmd.Wait()`
runs in a background goroutine with no further state effect) and log.
Otherwise the external branch. -/
def installerStopClient (env : StopEnv) (now : Nat) (m : Mgr) :
    Option MgrError × Mgr :=
  match m.clientCmd with
  | some ⟨_, some _⟩ =>
    let m1 := { m with clientCancel := false }
    if ¬ env.signalOk ∧ ¬ env.killOk then (some .killFailed, m1)
    else
      let m2 := { m1 with clientCmd := none }
      (none, m2.pushLog ⟨now, "INFO", "FRP 客户端已停止", "client"⟩)
  | some ⟨_, none⟩ => installerStopClientExternal env now m
  | none => installerStopClientExternal env now m

/-- The installer Stop function for a role (StopServer / StopClient). -/
def installerStopOf : Role → StopEnv → Nat → Mgr → Option MgrError × Mgr
  | .server => installerStopServer
  | .client => installerStopClient

/-- `monitorProcess` of the installer package (lines 797-842): after
`cmd.Wait()` returns with `exitErr`, clear the slot and log ONLY IF the slot
still holds the very command this monitor was started for (`m.serverCmd ==
cmd`, a pointer comparison, modelled by `GoCmd` equality).  The terminal
message is three-way classified: no error yields INFO `<src> 进程正常退出`; an
error whose text contains "signal: terminated" or "context canceled" yields
INFO `<src> 进程已正常停止`; any other error yields ERROR `进程异常退出: e`. -/
def installerMonitorProcess (role : Role) (cmd : GoCmd) (exitErr : Option String)
    (now : Nat) (m : Mgr) : Mgr :=
  if m.cmdOf role = some cmd then
    let m1 := m.setCmd role none
    match exitErr with
    | some e =>
      if goContains e "signal: terminated" || goContains e "context canceled" then
        m1.pushLog ⟨now, "INFO", roleSource role ++ " 进程已正常停止", roleSource role⟩
      else
        m1.pushLog ⟨now, "ERROR", "进程异常退出: " ++ e, roleSource role⟩
    | none =>
      m1.pushLog ⟨now, "INFO", roleSource role ++ " 进程正常退出", roleSource role⟩
  else m

/-- `collectLogs` of the service package (part_006 lines 365-378): scan the
stream line by line; every non-empty line is sent with a BLOCKING send.  The
channel capacity `cap` (1000 in `NewManager`) is explicit; with no concurrent
consumer a send on a full channel blocks the reader forever, so the function
returns the channel contents together with the unconsumed part of the stream
(head = the line whose send is blocked). -/
def serviceCollectLogs (cap : Nat) (source level : String) (now : Nat) :
    List String → List LogMessage → List LogMessage × List String
  | [], chan => (chan, [])
  | l :: rest, chan =>
    if l = "" then serviceCollectLogs cap source level now rest chan
    else if chan.length < cap then
      serviceCollectLogs cap source level now rest
        (chan ++ [⟨now, level, l, source⟩])
    else (chan, l :: rest)

/-- The non-blocking `select { case m.logChan <- msg: default: }` used by the
installer collectLogs for its deferred stop notice and scan-error report:
append when the channel has room, silently drop otherwise. -/
def installerTrySend (cap : Nat) (msg : LogMessage) (chan : List LogMessage) :
    List LogMessage :=
  if chan.length < cap then chan ++ [msg] else chan

/-- The scan loop of the installer package's `collectLogs` (lines 762-779):
trim each line; skip empty results; send a non-empty line with
`select`/`default` — but the `default` branch RETURNS, so a full channel
both drops the current event and stops the reader.  Result: the channel and
the lines never consumed (the loop exited while they remained). -/
def installerReadLoop (cap : Nat) (source level : String) (now : Nat) :
    List String → List LogMessage → List LogMessage × List String
  | [], chan => (chan, [])
  | l :: rest, chan =>
    if goTrim l = "" then installerReadLoop cap source level now rest chan
    else if chan.length < cap then
      installerReadLoop cap source level now rest
        (chan ++ [⟨now, level, goTrim l, source⟩])
    else (chan, rest)

/-- `collectLogs` of the installer package (lines 744-794): run the scan
loop; when it ran to stream end (nothing left unread), report a scanner
error, if any, with a non-blocking send; finally the deferred function (which
runs on every exit, including the early return on a full channel) sends the
DEBUG stop notice for the INFO-level reader, non-blockingly. -/
def installerCollectLogs (cap : Nat) (source level : String) (now : Nat)
    (lines : List String) (scanErr : Option String) (chan : List LogMessage) :
    List LogMessage × List String :=
  let r := installerReadLoop cap source level now lines chan
  let chan1 :=
    if r.2 = [] then
      match scanErr with
      | some e => installerTrySend cap ⟨now, "ERROR", "日志扫描错误: " ++ e, source⟩ r.1
      | none => r.1
    else r.1
  let chan2 :=
    if level = "INFO" then
      installerTrySend cap ⟨now, "DEBUG", source ++ " 日志收集已停止", source⟩ chan1
    else chan1
  (chan2, r.2)

/-- `Restart` of the service package (part_006 lines 412-431): dispatch on
the service string; Stop, then `time.Sleep(2 * time.Second)` (modelled by
starting at clock `now + 2`), then Start; a Stop failure is wrapped
(`停止服务端失败: %w`) and Start is not attempted. -/
def serviceRestart (svc : String) (configPath : String) (stopEnv : StopEnv)
    (startEnv : StartEnv) (now : Nat) (m : Mgr) : Option MgrError × Mgr :=
  if svc = "server" then
    match serviceStop .server stopEnv now m with
    | (some e, m1) => (some (.stopFailed e), m1)
    | (none, m1) => mgrStart .server startEnv configPath (now + 2) m1
  else if svc = "client" then
    match serviceStop .client stopEnv now m with
    | (some e, m1) => (some (.stopFailed e), m1)
    | (none, m1) => mgrStart .client startEnv configPath (now + 2) m1
  else (some (.unknownService svc), m)

/-- `Restart` of the installer package (lines 845-864): same structure as the
service version, calling the installer Stop functions. -/
def installerRestart (svc : String) (configPath : String) (stopEnv : StopEnv)
    (startEnv : StartEnv) (now : Nat) (m : Mgr) : Option MgrError × Mgr :=
  if svc = "server" then
    match installerStopServer stopEnv now m with
    | (some e, m1) => (some (.stopFailed e), m1)
    | (none, m1) => mgrStart .server startEnv configPath (now + 2) m1
  else if svc = "client" then
    match installerStopClient stopEnv now m with
    | (some e, m1) => (some (.stopFailed e), m1)
    | (none, m1) => mgrStart .client startEnv configPath (now + 2) m1
  else (some (.unknownService svc), m)

/-! Concrete fixtures used by witnesses and counterexamples. -/

/-- A started command: pointer identity 1, pid 42. -/
def cmd42 : GoCmd := ⟨1, some 42⟩

/-- A second, distinct started command: pointer identity 2, pid 43. -/
def cmd43 : GoCmd := ⟨2, some 43⟩

/-- A freshly constructed manager (both slots empty). -/
def mgrEmpty : Mgr := ⟨none, none, false, false, [], false⟩

/-- A manager whose server slot holds the live command `cmd42`. -/
def mgrLiveServer : Mgr := ⟨some cmd42, none, true, false, [], true⟩

/-- A manager whose server slot holds the newer live command `cmd43`. -/
def mgrNewServer : Mgr := ⟨some cmd43, none, true, false, [], true⟩

/-- A stop environment where signalling, killing and external kill all
succeed and the process probe finds nothing (pid 0). -/
def stopEnvOk : StopEnv := ⟨true, true, true, 0⟩

/-- A stop environment where the probe discovers an external process with
pid 77 and the kill-by-pid succeeds. -/
def stopEnvAdopted : StopEnv := ⟨true, true, true, 77⟩

/-- A search environment where only the PATH lookup hits. -/
def findEnvPathHit : FindEnv := ⟨false, "", "", some "/frompath/frps", "/w", false, []⟩

/-- The same search environment with the PATH lookup emptied: every stage of
the search misses. -/
def findEnvMiss : FindEnv := ⟨false, "", "", none, "/w", false, []⟩

/-- A start environment in which every OS step succeeds; the new command gets
identity 7 and pid 99. -/
def startEnvOk : StartEnv := ⟨true, findEnvPathHit, true, true, true, 7, 99⟩

/-- A channel holding one message (full at capacity 1). -/
def fullChan : List LogMessage := [⟨0, "INFO", "x", "server"⟩]

/-! Small structural lemmas about the manager record. -/

@[simp] theorem cmdOf_setCmd (m : Mgr) (role : Role) (c : Option GoCmd) :
    (m.setCmd role c).cmdOf role = c := by
  cases role <;> rfl

@[simp] theorem logChan_setCmd (m : Mgr) (role : Role) (c : Option GoCmd) :
    (m.setCmd role c).logChan = m.logChan := by
  cases role <;> rfl

@[simp] theorem cmdOf_pushLog (m : Mgr) (role : Role) (msg : LogMessage) :
    (m.pushLog msg).cmdOf role = m.cmdOf role := by
  cases role <;> rfl

@[simp] theorem logChan_pushLog (m : Mgr) (msg : LogMessage) :
    (m.pushLog msg).logChan = m.logChan ++ [msg] := rfl

@[simp] theorem cmdOf_setRunning (m : Mgr) (role : Role) (b : Bool) :
    Mgr.cmdOf { m with isRunning := b } role = m.cmdOf role := by
  cases role <;> rfl

@[simp] theorem cmdOf_setCancel (m : Mgr) (role role2 : Role) (b : Bool) :
    (m.setCancel role b).cmdOf role2 = m.cmdOf role2 := by
  cases role <;> cases role2 <;> rfl

/-- If a Start call returned no error, the role's slot holds the freshly
started command (identity and pid from the environment). -/
theorem mgrStart_ok_slot (role : Role) (env : StartEnv) (cfg : String)
    (now : Nat) (m m1 : Mgr) (h : mgrStart role env cfg now m = (none, m1)) :
    m1.cmdOf role = some ⟨env.newCmdId, some env.newPid⟩ := by
  unfold mgrStart at h
  split at h
  · simp at h
  · split at h
    · simp at h
    · split at h
      · simp at h
      · split at h
        · simp at h
        · split at h
          · simp at h
          · split at h
            · simp at h
            · obtain ⟨-, h2⟩ := Prod.mk.injEq .. ▸ h
              subst h2
              cases role <;>
                simp [Mgr.cmdOf, Mgr.setCmd, Mgr.setCancel, Mgr.pushLog]

/-- A Start call on a slot that is not live never fails with the
already-running error. -/
theorem mgrStart_no_alreadyRunning (role : Role) (env : StartEnv) (cfg : String)
    (now : Nat) (m : Mgr) (h : slotLive (m.cmdOf role) = false) :
    (mgrStart role env cfg now m).1 ≠ some (.alreadyRunning role) := by
  unfold mgrStart
  rw [if_neg (by simp [h])]
  (repeat' split) <;> simp

/-- An error-free installer Stop on a live slot leaves that slot empty. -/
theorem installerStop_ok_clears (role : Role) (env : StopEnv) (now : Nat)
    (m m2 : Mgr) (hl : slotLive (m.cmdOf role) = true)
    (h : installerStopOf role env now m = (none, m2)) :
    m2.cmdOf role = none := by
  cases role
  · rcases hc : m.serverCmd with _ | ⟨cid, _ | pid⟩
    · simp [Mgr.cmdOf, hc, slotLive] at hl
    · simp [Mgr.cmdOf, hc, slotLive] at hl
    · simp only [installerStopOf, installerStopServer, hc] at h
      split at h
      · simp at h
      · obtain ⟨-, h2⟩ := Prod.mk.injEq .. ▸ h
        subst h2
        rfl
  · rcases hc : m.clientCmd with _ | ⟨cid, _ | pid⟩
    · simp [Mgr.cmdOf, hc, slotLive] at hl
    · simp [Mgr.cmdOf, hc, slotLive] at hl
    · simp only [installerStopOf, installerStopClient, hc] at h
      split at h
      · simp at h
      · obtain ⟨-, h2⟩ := Prod.mk.injEq .. ▸ h
        subst h2
        rfl

/-- After any installer Stop call, the role's slot is not live: a Stop
either clears a live slot or leaves an already non-live slot untouched. -/
theorem installerStop_ok_not_live (role : Role) (env : StopEnv) (now : Nat)
    (m : Mgr) : slotLive ((installerStopOf role env now m).2.cmdOf role) = false ∨
      (installerStopOf role env now m).1 = some .killFailed := by
  cases role
  · rcases hc : m.serverCmd with _ | ⟨cid, _ | pid⟩
    · simp only [installerStopOf, installerStopServer, hc]
      unfold installerStopServerExternal
      split
      · split
        · simp [Mgr.cmdOf, hc, slotLive]
        · simp [Mgr.cmdOf, Mgr.pushLog, hc, slotLive]
      · simp [Mgr.cmdOf, hc, slotLive]
    · simp only [installerStopOf, installerStopServer, hc]
      unfold installerStopServerExternal
      split
      · split
        · simp [Mgr.cmdOf, hc, slotLive]
        · simp [Mgr.cmdOf, Mgr.pushLog, hc, slotLive]
      · simp [Mgr.cmdOf, hc, slotLive]
    · simp only [installerStopOf, installerStopServer, hc]
      split
      · simp
      · simp [Mgr.cmdOf, Mgr.pushLog, slotLive]
  · rcases hc : m.clientCmd with _ | ⟨cid, _ | pid⟩
    · simp only [installerStopOf, installerStopClient, hc]
      unfold installerStopClientExternal
      split
      · split
        · simp [Mgr.cmdOf, hc, slotLive]
        · simp [Mgr.cmdOf, Mgr.pushLog, hc, slotLive]
      · simp [Mgr.cmdOf, hc, slotLive]
    · simp only [installerStopOf, installerStopClient, hc]
      unfold installerStopClientExternal
      split
      · split
        · simp [Mgr.cmdOf, hc, slotLive]
        · simp [Mgr.cmdOf, Mgr.pushLog, hc, slotLive]
      · simp [Mgr.cmdOf, hc, slotLive]
    · simp only [installerStopOf, installerStopClient, hc]
      split
      · simp
      · simp [Mgr.cmdOf, Mgr.pushLog, slotLive]

/-- A stale installer monitor (slot no longer holds its command) changes
nothing. -/
theorem installerMonitor_miss (role : Role) (cmd : GoCmd) (exitErr : Option String)
    (now : Nat) (m : Mgr) (h : ¬ m.cmdOf role = some cmd) :
    installerMonitorProcess role cmd exitErr now m = m := by
  simp [installerMonitorProcess, h]

/-- An installer monitor whose command still owns the slot clears the slot. -/
theorem installerMonitor_hit_slot (role : Role) (cmd : GoCmd) (exitErr : Option String)
    (now : Nat) (m : Mgr) (h : m.cmdOf role = some cmd) :
    (installerMonitorProcess role cmd exitErr now m).cmdOf role = none := by
  unfold installerMonitorProcess
  rw [if_pos h]
  (repeat' split) <;> simp

/-- An installer monitor whose command still owns the slot appends exactly
one terminal message. -/
theorem installerMonitor_hit_log (role : Role) (cmd : GoCmd) (exitErr : Option String)
    (now : Nat) (m : Mgr) (h : m.cmdOf role = some cmd) :
    ∃ msg, (installerMonitorProcess role cmd exitErr now m).logChan =
      m.logChan ++ [msg] := by
  unfold installerMonitorProcess
  rw [if_pos h]
  (repeat' split) <;> exact ⟨_, by rw [logChan_pushLog, logChan_setCmd]⟩

/-- C5: for every role, configuration path and environment, Start on a role
whose slot already holds a ManagedProcess (a command with a non-nil Process)
returns the already-running error and returns the manager unchanged.  This
is the first check of all four Start functions (service part_006 lines
59-61 / 120-122, installer lines 426-428 / 478-480), performed under the
lock before any mutation. -/
theorem start_already_running (role : Role) (env : StartEnv) (cfg : String)
    (now : Nat) (m : Mgr) (h : slotLive (m.cmdOf role) = true) :
    mgrStart role env cfg now m = (some (.alreadyRunning role), m) := by
  unfold mgrStart
  rw [if_pos (by simp [h])]

/-- Witness for `start_already_running` at a concrete manager whose server
slot holds the live command `cmd42`. -/
theorem start_already_running_witness :
    slotLive (mgrLiveServer.cmdOf .server) = true ∧
      mgrStart .server startEnvOk "cfg" 3 mgrLiveServer =
        (some (.alreadyRunning .server), mgrLiveServer) :=
  ⟨rfl, start_already_running .server startEnvOk "cfg" 3 mgrLiveServer rfl⟩

/-- C10: whenever a status query reports a running process, the StartTime it
reports is the clock value of the query itself (`time.Now()` evaluated
inside GetServerStatus/GetClientStatus, both packages), not the time the
process was started; the Manager struct records no start timestamp (its
fields are exactly the two command slots, the two cancel funcs, the log
channel and the isRunning flag — see the `Mgr` structure above, which
mirrors the Go struct field for field). -/
theorem status_startTime_is_query_time (role : Role) (probePid now : Nat)
    (m : Mgr) :
    ((installerGetStatus role now m).isRunning = true →
      (installerGetStatus role now m).startTime = now) ∧
    ((serviceGetStatus role probePid now m).isRunning = true →
      (serviceGetStatus role probePid now m).startTime = now) := by
  constructor
  · unfold installerGetStatus
    rcases m.cmdOf role with _ | ⟨cid, _ | pid⟩ <;> simp
  · unfold serviceGetStatus
    rcases m.cmdOf role with _ | ⟨cid, _ | pid⟩ <;>
      simp [slotLive] <;> split <;> simp

/-- Witness for `status_startTime_is_query_time`: the installer status of a
live server at clock 5 carries StartTime 5. -/
theorem status_startTime_witness :
    (installerGetStatus .server 5 mgrLiveServer).isRunning = true ∧
      (installerGetStatus .server 5 mgrLiveServer).startTime = 5 :=
  ⟨rfl, (status_startTime_is_query_time .server 0 5 mgrLiveServer).1 rfl⟩

/-- C1 counterexample: in the service package, StopServer returns without
error, yet the server slot still holds the managed process — the slot is
cleared only later, by the background goroutine that waits for process exit
(part_006 lines 198-203) — so an immediately following StartServer fails
with the already-running error instead of succeeding. -/
theorem serviceStop_keeps_slot_cex :
    (serviceStop .server stopEnvOk 5 mgrLiveServer).1 = none ∧
      (serviceStop .server stopEnvOk 5 mgrLiveServer).2.serverCmd = some cmd42 ∧
      (mgrStart .server startEnvOk "cfg" 6
          (serviceStop .server stopEnvOk 5 mgrLiveServer).2).1 =
        some (.alreadyRunning .server) :=
  ⟨rfl, rfl, rfl⟩

/-- C1 amended: in the installer package the property holds: when Stop(role)
returns without error, the role's slot holds no live command (it was cleared
if it was live — for StopServer only after a synchronous in-line Wait, for
StopClient with the wait left to a background goroutine), and an immediately
following Start cannot fail with the already-running error.  In the service
package Stop does NOT release ownership synchronously: the slot is cleared
only by a background goroutine after the OS process exits, so an immediate
Start can fail with the already-running error (see the counterexample). -/
theorem installer_stop_releases_ownership (role : Role) (env : StopEnv)
    (now : Nat) (m : Mgr) (h : (installerStopOf role env now m).1 = none) :
    slotLive ((installerStopOf role env now m).2.cmdOf role) = false ∧
      (slotLive (m.cmdOf role) = true →
        (installerStopOf role env now m).2.cmdOf role = none) ∧
      ∀ senv cfg t,
        (mgrStart role senv cfg t (installerStopOf role env now m).2).1 ≠
          some (.alreadyRunning role) := by
  have hnl : slotLive ((installerStopOf role env now m).2.cmdOf role) = false := by
    rcases installerStop_ok_not_live role env now m with h1 | h1
    · exact h1
    · rw [h] at h1; exact absurd h1 (by simp)
  refine ⟨hnl, fun hl => ?_, fun senv cfg t => ?_⟩
  · exact installerStop_ok_clears role env now m _ hl
      (Prod.ext_iff.mpr ⟨h, rfl⟩)
  · exact mgrStart_no_alreadyRunning role senv cfg t _ hnl

/-- Witness for `installer_stop_releases_ownership`: stopping the live
server of `mgrLiveServer` succeeds, empties the slot, and a retry of Start
does not report already-running. -/
theorem installer_stop_releases_ownership_witness :
    (installerStopOf .server stopEnvOk 5 mgrLiveServer).1 = none ∧
      (installerStopOf .server stopEnvOk 5 mgrLiveServer).2.cmdOf .server = none ∧
      (mgrStart .server startEnvOk "cfg" 6
          (installerStopOf .server stopEnvOk 5 mgrLiveServer).2).1 ≠
        some (.alreadyRunning .server) :=
  ⟨rfl,
    (installer_stop_releases_ownership .server stopEnvOk 5 mgrLiveServer rfl).2.1 rfl,
    (installer_stop_releases_ownership .server stopEnvOk 5 mgrLiveServer rfl).2.2
      startEnvOk "cfg" 6⟩

/-- C2 counterexample: installer StopServer called while no ManagedProcess
owns the server role and the liveness probe finds nothing (pid 0) returns NO
error — the code falls through `if stoppedPID > 0` to `return nil`
(installer lines 549-567) — whereas the claim requires the NotRunning
error. -/
theorem installerStopServer_silent_cex :
    mgrEmpty.serverCmd = none ∧ stopEnvOk.probePid = 0 ∧
      installerStopServer stopEnvOk 0 mgrEmpty = (none, mgrEmpty) :=
  ⟨rfl, rfl, rfl⟩

/-- C2 amended: in the installer package, Stop on a role with no
ManagedProcess kills a probe-discovered adopted process by pid and returns
no error (both roles); when neither exists, StopClient returns the
not-running error but StopServer returns no error at all.  In the service
package there is no adoption path: Stop on a role with no ManagedProcess
always returns the not-running error, regardless of what the probe could
have discovered. -/
theorem stop_without_managed_process (role : Role) (env : StopEnv) (now : Nat)
    (m : Mgr) (h : slotLive (m.cmdOf role) = false) :
    serviceStop role env now m = (some (.notRunning role), m) ∧
      (env.probePid > 0 → env.extKillOk = true →
        (installerStopOf role env now m).1 = none) ∧
      (env.probePid = 0 →
        (installerStopOf role env now m).1 =
          (match role with
           | .server => none
           | .client => some (.notRunning .client))) := by
  refine ⟨?_, ?_, ?_⟩
  · unfold serviceStop
    rw [if_pos (by simp [h])]
  · intro hp hk
    cases role
    · rcases hc : m.serverCmd with _ | ⟨cid, _ | pid⟩
      · simp [installerStopOf, installerStopServer, installerStopServerExternal,
          hc, hp, hk]
      · simp [installerStopOf, installerStopServer, installerStopServerExternal,
          hc, hp, hk]
      · rw [Mgr.cmdOf] at h
        simp [hc, slotLive] at h
    · rcases hc : m.clientCmd with _ | ⟨cid, _ | pid⟩
      · simp [installerStopOf, installerStopClient, installerStopClientExternal,
          hc, hp, hk]
      · simp [installerStopOf, installerStopClient, installerStopClientExternal,
          hc, hp, hk]
      · rw [Mgr.cmdOf] at h
        simp [hc, slotLive] at h
  · intro hp
    cases role
    · rcases hc : m.serverCmd with _ | ⟨cid, _ | pid⟩
      · simp [installerStopOf, installerStopServer, installerStopServerExternal,
          hc, hp]
      · simp [installerStopOf, installerStopServer, installerStopServerExternal,
          hc, hp]
      · rw [Mgr.cmdOf] at h
        simp [hc, slotLive] at h
    · rcases hc : m.clientCmd with _ | ⟨cid, _ | pid⟩
      · simp [installerStopOf, installerStopClient, installerStopClientExternal,
          hc, hp]
      · simp [installerStopOf, installerStopClient, installerStopClientExternal,
          hc, hp]
      · rw [Mgr.cmdOf] at h
        simp [hc, slotLive] at h

/-- Witness for `stop_without_managed_process`: with both slots empty, the
service Stop reports not-running, the installer client Stop kills the
adopted pid-77 process with no error, and with nothing discovered the
installer client Stop reports not-running. -/
theorem stop_without_managed_process_witness :
    serviceStop .client stopEnvAdopted 2 mgrEmpty =
        (some (.notRunning .client), mgrEmpty) ∧
      (installerStopOf .client stopEnvAdopted 2 mgrEmpty).1 = none ∧
      (installerStopOf .client stopEnvOk 2 mgrEmpty).1 =
        some (.notRunning .client) :=
  ⟨(stop_without_managed_process .client stopEnvAdopted 2 mgrEmpty rfl).1,
    (stop_without_managed_process .client stopEnvAdopted 2 mgrEmpty rfl).2.1
      (by decide) rfl,
    (stop_without_managed_process .client stopEnvOk 2 mgrEmpty rfl).2.2 rfl⟩

/-- C3 counterexample: the installer collectLogs on a full channel (capacity
1, one message already queued) reading lines "a" then "b" discards the event
for "a" and RETURNS, leaving "b" unread: the reader does not continue
reading subsequent lines from its stream. -/
theorem installer_collectLogs_full_cex :
    fullChan.length = 1 ∧
      installerCollectLogs 1 "server" "ERROR" 1 ["a", "b"] none fullChan =
        (fullChan, ["b"]) :=
  ⟨rfl, rfl⟩

/-- C3 amended: neither implementation drops-and-continues.  In the
installer package a send on a full channel takes the `default` branch, which
discards the event and RETURNS from the reader, leaving the rest of the
stream unconsumed (channel unchanged).  In the service package the send is
an unconditional blocking channel send, so on a full channel the reader
blocks until a consumer drains the channel, with the pending line and the
rest of the stream unconsumed until then. -/
theorem collectLogs_full_channel_behaviour (cap : Nat) (src lvl : String)
    (now : Nat) (l : String) (rest : List String) (chan : List LogMessage)
    (hfull : ¬ chan.length < cap) :
    (goTrim l ≠ "" →
      installerReadLoop cap src lvl now (l :: rest) chan = (chan, rest)) ∧
    (l ≠ "" →
      serviceCollectLogs cap src lvl now (l :: rest) chan = (chan, l :: rest)) := by
  constructor
  · intro h
    unfold installerReadLoop
    rw [if_neg h, if_neg hfull]
  · intro h
    unfold serviceCollectLogs
    rw [if_neg h, if_neg hfull]

/-- Witness for `collectLogs_full_channel_behaviour` at capacity 1 with the
one-message channel `fullChan`: the installer reader drops "a" and stops
with "b" unread; the service reader blocks with "a" and "b" unread. -/
theorem collectLogs_full_channel_witness :
    installerReadLoop 1 "server" "ERROR" 1 ["a", "b"] fullChan =
        (fullChan, ["b"]) ∧
      serviceCollectLogs 1 "server" "ERROR" 1 ["a", "b"] fullChan =
        (fullChan, ["a", "b"]) :=
  ⟨(collectLogs_full_channel_behaviour 1 "server" "ERROR" 1 "a" ["b"] fullChan
      (by decide)).1 (by decide),
    (collectLogs_full_channel_behaviour 1 "server" "ERROR" 1 "a" ["b"] fullChan
      (by decide)).2 (by decide)⟩

/-- C4 counterexample: the service monitorProcess clears the role's slot
unconditionally (part_006 lines 403-408, keyed only on the source string):
a stale monitor started for `cmd42` clears a slot that has since been
reassigned to the distinct newer process `cmd43`, and still emits its
terminal event. -/
theorem serviceMonitor_clobbers_cex :
    mgrNewServer.serverCmd = some cmd43 ∧ cmd43 ≠ cmd42 ∧
      (serviceMonitorProcess .server cmd42 none 9 mgrNewServer).serverCmd =
        none ∧
      (serviceMonitorProcess .server cmd42 none 9 mgrNewServer).logChan =
        [⟨9, "INFO", "进程正常退出", "server"⟩] :=
  ⟨rfl, by decide, rfl, rfl⟩

/-- C4 amended: the guard exists only in the installer package: its
monitorProcess clears the slot and emits the terminal event only if the slot
still holds the exact command (pointer comparison `m.serverCmd == cmd`) the
monitor was started for, and changes nothing otherwise.  The service
package's monitorProcess has no such guard: it always emits its terminal
event and always clears the role's slot, so a stale service monitor does
clobber a slot reassigned to a newer process. -/
theorem monitor_stale_guard (role : Role) (cmd : GoCmd) (exitErr : Option String)
    (now : Nat) (m : Mgr) :
    (m.cmdOf role ≠ some cmd →
      installerMonitorProcess role cmd exitErr now m = m) ∧
    (m.cmdOf role = some cmd →
      (installerMonitorProcess role cmd exitErr now m).cmdOf role = none ∧
      ∃ msg, (installerMonitorProcess role cmd exitErr now m).logChan =
        m.logChan ++ [msg]) ∧
    (serviceMonitorProcess role cmd exitErr now m).cmdOf role = none := by
  refine ⟨fun h => installerMonitor_miss role cmd exitErr now m h,
    fun h => ⟨installerMonitor_hit_slot role cmd exitErr now m h,
      installerMonitor_hit_log role cmd exitErr now m h⟩, ?_⟩
  unfold serviceMonitorProcess
  cases exitErr <;> simp

/-- Witness for `monitor_stale_guard`: an installer monitor for `cmd42`
finds the server slot reassigned to `cmd43` and leaves the manager
untouched; one whose command still owns the slot clears it. -/
theorem monitor_stale_guard_witness :
    installerMonitorProcess .server cmd42 none 9 mgrNewServer = mgrNewServer ∧
      (installerMonitorProcess .server cmd42 none 9 mgrLiveServer).cmdOf
          .server = none :=
  ⟨(monitor_stale_guard .server cmd42 none 9 mgrNewServer).1 (by decide),
    ((monitor_stale_guard .server cmd42 none 9 mgrLiveServer).2.1 rfl).1⟩

/-- C6 counterexample: in the service package, after a successful Start and
an error-free Stop, the status query still reports IsRunning = true (with
the old pid), because Stop left the slot occupied for the background waiter
to clear; the claim requires IsRunning to be false once Stop has been
called. -/
theorem serviceStatus_true_after_stop_cex :
    (mgrStart .server startEnvOk "cfg" 1 mgrEmpty).1 = none ∧
      (serviceStop .server stopEnvOk 2
          (mgrStart .server startEnvOk "cfg" 1 mgrEmpty).2).1 = none ∧
      (serviceGetStatus .server 0 3
          (serviceStop .server stopEnvOk 2
              (mgrStart .server startEnvOk "cfg" 1 mgrEmpty).2).2).isRunning =
        true :=
  ⟨rfl, rfl, rfl⟩

/-- C6 amended: the property holds for the installer package, whose status
queries consult only the manager's own slot: after a successful Start the
status reports running with the started process's pid (StartTime being the
query time, see the C10 theorem), and after an error-free Stop, or after the
exit-monitor of that same started command has run, the status reports not
running.  In the service package, Status can still report IsRunning = true
after an error-free Stop returns (the slot is cleared only by the background
waiter), and can also report running for an externally discovered process. -/
theorem installer_status_lifecycle (role : Role) (env : StartEnv) (cfg : String)
    (now : Nat) (m m1 : Mgr) (h : mgrStart role env cfg now m = (none, m1)) :
    (∀ t, installerGetStatus role t m1 =
      ⟨true, env.newPid, t⟩) ∧
    (∀ senv ts m2, installerStopOf role senv ts m1 = (none, m2) →
      ∀ t2, (installerGetStatus role t2 m2).isRunning = false) ∧
    (∀ exitErr tm t2,
      (installerGetStatus role t2
          (installerMonitorProcess role ⟨env.newCmdId, some env.newPid⟩ exitErr
            tm m1)).isRunning = false) := by
  have hs := mgrStart_ok_slot role env cfg now m m1 h
  refine ⟨fun t => ?_, fun senv ts m2 h2 t2 => ?_, fun exitErr tm t2 => ?_⟩
  · unfold installerGetStatus
    rw [hs]
  · have hl : slotLive (m1.cmdOf role) = true := by rw [hs]; rfl
    have hc := installerStop_ok_clears role senv ts m1 m2 hl h2
    unfold installerGetStatus
    rw [hc]
  · have hc := installerMonitor_hit_slot role ⟨env.newCmdId, some env.newPid⟩
      exitErr tm m1 hs
    unfold installerGetStatus
    rw [hc]

/-- Witness for `installer_status_lifecycle`: starting the server on an
empty manager succeeds; the installer status then reports running with pid
99, and after an error-free installer Stop it reports not running. -/
theorem installer_status_lifecycle_witness :
    installerGetStatus .server 4
        (mgrStart .server startEnvOk "cfg" 1 mgrEmpty).2 = ⟨true, 99, 4⟩ ∧
      (installerGetStatus .server 6
          (installerStopOf .server stopEnvOk 5
              (mgrStart .server startEnvOk "cfg" 1 mgrEmpty).2).2).isRunning =
        false :=
  ⟨(installer_status_lifecycle .server startEnvOk "cfg" 1 mgrEmpty _
      (Prod.ext_iff.mpr ⟨rfl, rfl⟩)).1 4,
    (installer_status_lifecycle .server startEnvOk "cfg" 1 mgrEmpty _
      (Prod.ext_iff.mpr ⟨rfl, rfl⟩)).2.1 stopEnvOk 5 _
      (Prod.ext_iff.mpr ⟨rfl, rfl⟩) 6⟩

/-- C7 counterexample: the service monitorProcess classifies a
signal-terminated exit — the very shape produced by the SIGTERM that Stop
requests — as ERROR `进程异常退出: signal: terminated` (part_006 lines
387-393), not as the INFO "process stopped" event the claim requires for a
requested termination; it has no three-way classification at all. -/
theorem serviceMonitor_sigterm_cex :
    goContains "signal: terminated" "signal: terminated" = true ∧
      (serviceMonitorProcess .server cmd42 (some "signal: terminated") 3
          mgrLiveServer).logChan =
        [⟨3, "ERROR", "进程异常退出: signal: terminated", "server"⟩] :=
  ⟨rfl, rfl⟩

/-- C7 amended: the three-way classification exists only in the installer
package's monitorProcess, and "termination was explicitly requested" is
approximated there by string-matching the exit cause: when its command still
owns the slot it emits exactly one terminal event — INFO `<src> 进程正常退出`
for an error-free wait, INFO `<src> 进程已正常停止` when the wait error's text
contains "signal: terminated" or "context canceled" (whether or not this
manager requested the termination), and ERROR `进程异常退出: <cause>`
otherwise.  The service package's monitorProcess classifies two ways only
(clean INFO / any-error ERROR), reporting a requested SIGTERM stop as an
abnormal exit. -/
theorem installer_monitor_classification (role : Role) (cmd : GoCmd) (now : Nat)
    (m : Mgr) (h : m.cmdOf role = some cmd) :
    ((installerMonitorProcess role cmd none now m).logChan =
      m.logChan ++
        [⟨now, "INFO", roleSource role ++ " 进程正常退出", roleSource role⟩]) ∧
    (∀ e, (goContains e "signal: terminated" ||
        goContains e "context canceled") = true →
      (installerMonitorProcess role cmd (some e) now m).logChan =
        m.logChan ++
          [⟨now, "INFO", roleSource role ++ " 进程已正常停止", roleSource role⟩]) ∧
    (∀ e, (goContains e "signal: terminated" ||
        goContains e "context canceled") = false →
      (installerMonitorProcess role cmd (some e) now m).logChan =
        m.logChan ++
          [⟨now, "ERROR", "进程异常退出: " ++ e, roleSource role⟩]) := by
  refine ⟨?_, fun e he => ?_, fun e he => ?_⟩ <;>
    unfold installerMonitorProcess <;> rw [if_pos h]
  · simp
  · simp [he]
  · simp [he]

/-- Witness for `installer_monitor_classification`: a monitor owning the
slot classifies the exit cause "signal: terminated" as the INFO stop
event. -/
theorem installer_monitor_classification_witness :
    (installerMonitorProcess .server cmd42 (some "signal: terminated") 3
        mgrLiveServer).logChan =
      mgrLiveServer.logChan ++
        [⟨3, "INFO", roleSource .server ++ " 进程已正常停止", roleSource .server⟩] :=
  (installer_monitor_classification .server cmd42 3 mgrLiveServer rfl).2.1
    "signal: terminated" rfl

/-- Unfolding of the service Restart to the Stop-then-delayed-Start
composition (the service-string dispatch resolved per role). -/
theorem serviceRestart_eq (role : Role) (cfg : String) (stopEnv : StopEnv)
    (startEnv : StartEnv) (now : Nat) (m : Mgr) :
    serviceRestart (roleSource role) cfg stopEnv startEnv now m =
      (match serviceStop role stopEnv now m with
       | (some e, m1) => (some (.stopFailed e), m1)
       | (none, m1) => mgrStart role startEnv cfg (now + 2) m1) := by
  cases role <;> simp [serviceRestart, roleSource]

/-- Unfolding of the installer Restart to the Stop-then-delayed-Start
composition. -/
theorem installerRestart_eq (role : Role) (cfg : String) (stopEnv : StopEnv)
    (startEnv : StartEnv) (now : Nat) (m : Mgr) :
    installerRestart (roleSource role) cfg stopEnv startEnv now m =
      (match installerStopOf role stopEnv now m with
       | (some e, m1) => (some (.stopFailed e), m1)
       | (none, m1) => mgrStart role startEnv cfg (now + 2) m1) := by
  cases role <;> simp [installerRestart, installerStopOf, roleSource]

/-- C8: in both packages, Restart(role) runs Stop first; if Stop returns an
error, that error is surfaced (wrapped as `停止…失败: %w`) with the manager in
its post-Stop state and Start is never attempted; if Stop succeeds, Restart's
result is exactly the result of Start run after the fixed two-second settling
delay (`time.Sleep(2 * time.Second)`, modelled as the Start timestamp
`now + 2`) on the post-Stop state. -/
theorem restart_sequencing (role : Role) (cfg : String) (stopEnv : StopEnv)
    (startEnv : StartEnv) (now : Nat) (m : Mgr) :
    ((serviceStop role stopEnv now m).1 = none →
      serviceRestart (roleSource role) cfg stopEnv startEnv now m =
        mgrStart role startEnv cfg (now + 2) (serviceStop role stopEnv now m).2) ∧
    (∀ e, (serviceStop role stopEnv now m).1 = some e →
      serviceRestart (roleSource role) cfg stopEnv startEnv now m =
        (some (.stopFailed e), (serviceStop role stopEnv now m).2)) ∧
    ((installerStopOf role stopEnv now m).1 = none →
      installerRestart (roleSource role) cfg stopEnv startEnv now m =
        mgrStart role startEnv cfg (now + 2) (installerStopOf role stopEnv now m).2) ∧
    (∀ e, (installerStopOf role stopEnv now m).1 = some e →
      installerRestart (roleSource role) cfg stopEnv startEnv now m =
        (some (.stopFailed e), (installerStopOf role stopEnv now m).2)) := by
  refine ⟨fun h => ?_, fun e h => ?_, fun h => ?_, fun e h => ?_⟩
  · rw [serviceRestart_eq]
    rcases hp : serviceStop role stopEnv now m with ⟨fst, m1⟩
    rw [hp] at h
    cases fst with
    | some e2 => exact absurd h (by simp)
    | none => rfl
  · rw [serviceRestart_eq]
    rcases hp : serviceStop role stopEnv now m with ⟨fst, m1⟩
    rw [hp] at h
    cases fst with
    | some e2 =>
      obtain rfl : e2 = e := by simpa using h
      rfl
    | none => exact absurd h (by simp)
  · rw [installerRestart_eq]
    rcases hp : installerStopOf role stopEnv now m with ⟨fst, m1⟩
    rw [hp] at h
    cases fst with
    | some e2 => exact absurd h (by simp)
    | none => rfl
  · rw [installerRestart_eq]
    rcases hp : installerStopOf role stopEnv now m with ⟨fst, m1⟩
    rw [hp] at h
    cases fst with
    | some e2 =>
      obtain rfl : e2 = e := by simpa using h
      rfl
    | none => exact absurd h (by simp)

/-- Witness for `restart_sequencing`: an error-free service Stop makes
Restart("server") return exactly the Start result on the post-Stop state at
clock now + 2; a failing service Stop (no live process, nothing adopted)
makes Restart surface the wrapped not-running error without starting. -/
theorem restart_sequencing_witness :
    serviceRestart "server" "cfg" stopEnvOk startEnvOk 1 mgrLiveServer =
        mgrStart .server startEnvOk "cfg" 3
          (serviceStop .server stopEnvOk 1 mgrLiveServer).2 ∧
      serviceRestart "server" "cfg" stopEnvOk startEnvOk 1 mgrEmpty =
        (some (.stopFailed (.notRunning .server)), mgrEmpty) :=
  ⟨(restart_sequencing .server "cfg" stopEnvOk startEnvOk 1 mgrLiveServer).1 rfl,
    (restart_sequencing .server "cfg" stopEnvOk startEnvOk 1 mgrEmpty).2.1
      (.notRunning .server) rfl⟩

/-- C9 counterexample: the executable location is not an opaque supplied
path — Start takes no executable-path argument at all and searches for the
binary itself.  Two environments identical except for the PATH lookup
produce different results: with a PATH hit Start succeeds using the found
binary, with no PATH hit (and nothing else on disk) Start fails with the
executable-not-found error, so Start does consult PATH. -/
theorem findFRPExecutable_consults_path_cex :
    findEnvPathHit = { findEnvMiss with lookPathHit := some "/frompath/frps" } ∧
      findFRPExecutable findEnvPathHit "frps" = some "/frompath/frps" ∧
      findFRPExecutable findEnvMiss "frps" = none ∧
      (mgrStart .server startEnvOk "cfg" 1 mgrEmpty).1 = none ∧
      (mgrStart .server { startEnvOk with findEnv := findEnvMiss } "cfg" 1
          mgrEmpty).1 = some (.execNotFound "frps") :=
  ⟨rfl, rfl, rfl, rfl, rfl⟩

/-- C9 amended: Start receives only a configuration path and resolves the
role's executable itself through findFRPExecutable's search chain, in
order: the installer's recorded installation paths, a PATH lookup
(`exec.LookPath`), the current working directory (`.exe` appended on
Windows), and the well-known locations /usr/local/bin, /usr/bin, /opt/frp
and ./bin. -/
theorem findFRPExecutable_search_chain (env : FindEnv) (name : String) :
    (env.instOk = true → name = "frps" → env.instFrpsPath ≠ "" →
      findFRPExecutable env name = some env.instFrpsPath) ∧
    (env.instOk = false → ∀ p, env.lookPathHit = some p →
      findFRPExecutable env name = some p) ∧
    (env.instOk = false → env.lookPathHit = none →
      env.existing.contains
          (if env.isWindows then env.cwd ++ "/" ++ name ++ ".exe"
           else env.cwd ++ "/" ++ name) = true →
      findFRPExecutable env name =
        some (if env.isWindows then env.cwd ++ "/" ++ name ++ ".exe"
              else env.cwd ++ "/" ++ name)) ∧
    (env.instOk = false → env.lookPathHit = none → env.isWindows = false →
      env.existing.contains (env.cwd ++ "/" ++ name) = false →
      env.existing.contains ("/usr/local/bin/" ++ name) = true →
      findFRPExecutable env name = some ("/usr/local/bin/" ++ name)) := by
  refine ⟨fun h1 h2 h3 => ?_, fun h1 p h2 => ?_, fun h1 h2 h3 => ?_,
    fun h1 h2 h3 h4 h5 => ?_⟩
  · unfold findFRPExecutable
    rw [if_pos ⟨h1, h2, h3⟩]
  · unfold findFRPExecutable
    rw [if_neg (by simp [h1]), if_neg (by simp [h1]), h2]
  · unfold findFRPExecutable
    rw [if_neg (by simp [h1]), if_neg (by simp [h1]), h2]
    have h3m : (if env.isWindows then env.cwd ++ "/" ++ name ++ ".exe"
        else env.cwd ++ "/" ++ name) ∈ env.existing := by simpa using h3
    simp [h3m]
  · unfold findFRPExecutable
    rw [if_neg (by simp [h1]), if_neg (by simp [h1]), h2, h3]
    have h4m : ¬ (env.cwd ++ "/" ++ name) ∈ env.existing := by simpa using h4
    have h5m : ("/usr/local/bin/" ++ name) ∈ env.existing := by simpa using h5
    simp [List.find?, h4m, h5m]

/-- Witness for `findFRPExecutable_search_chain`: in the PATH-hit
environment (installer check missed), the search returns the PATH result. -/
theorem findFRPExecutable_search_chain_witness :
    findFRPExecutable findEnvPathHit "frps" = some "/frompath/frps" :=
  (findFRPExecutable_search_chain findEnvPathHit "frps").2.1 rfl
    "/frompath/frps" rfl

end FrpCliGui
